import Mathlib

/-!
Shallow embedding of `src/quartz_solar_forecast/inverters/auroravision.py`
(the Aurora Vision inverter adapter of quartz-solar-forecast) and proofs of
the specification claims about it.

Modelling conventions:
* Python `dict`/`list` JSON values are an inductive `Json`; `json.loads` of a
  response body is modelled by scripting the already-parsed `Json` value.
* JSON numbers (Python int/float) are modelled as rationals `Rat`; every
  numeric value appearing in a claim (240 / 24.0 = 10.0, 0 / 24.0 = 0.0) is
  exactly representable in binary floating point, so no rounding is lost.
* Python exceptions are the inductive `PyError`; a function that can raise
  returns `Except PyError _`.
* `pandas.DataFrame(records)` is modelled as the `List` of records, in order:
  the claims only speak about the rows, their order and their two columns.
* Network I/O is modelled by a script: a list of `HttpResponse` values fed to
  successive `conn.request`/`conn.getresponse` pairs in order.  Each issued
  production-query request is logged as an `Event.request`; entering
  `authenticate_aurora` is logged as `Event.authCall`.
* `os.environ` / `os.getenv "AURORA_ACCESS_TOKEN"` is the single slot of `Env`.

A faithfulness note that matters below: the Python module uses
`base64.b64encode` at line 36 but never imports `base64`, so every call of
`authenticate_aurora` raises `NameError: name 'base64' is not defined` at
line 36, before `conn.request` is ever executed.  The embedding reproduces
this.
-/

namespace Aurora

/-- A parsed JSON value (the result of `json.loads`).  JSON numbers are
modelled as rationals. -/
inductive Json where
  | null : Json
  | bool (b : Bool) : Json
  | num (q : Rat) : Json
  | str (s : String) : Json
  | arr (elems : List Json) : Json
  | obj (fields : List (String × Json)) : Json

/-- Python exceptions raised by the module, as an error type. -/
inductive PyError where
  /-- `NameError: name '<n>' is not defined` -/
  | nameError (n : String) : PyError
  /-- `KeyError: '<k>'` (raised by `entry["date"]` when the key is absent) -/
  | keyError (k : String) : PyError
  /-- `ValueError` (raised by `datetime.strptime` on a malformed date) -/
  | valueError : PyError
  /-- `TypeError` (non-string date, non-numeric production, bad subscript…) -/
  | typeError : PyError
  /-- `AttributeError` (calling `.get` on a non-dict) -/
  | attributeError : PyError
  /-- `Exception(f"Authentication failed with status \x7bres.status\x7d")` -/
  | authFailed (status : Nat) : PyError
  /-- `Exception(f"Failed to fetch data: HTTP \x7bres.status\x7d")` -/
  | fetchFailed (status : Nat) : PyError
  /-- marker for a request the response script does not answer (a run of the
  model never reaches it when the script covers every issued request) -/
  | noResponse : PyError
deriving DecidableEq, Repr

/-- Lookup of a key in the field list of a JSON object.  `json.loads` builds a
Python dict, where a later duplicate key overwrites an earlier one, so the
lookup is last-wins. -/
def jlookup (fields : List (String × Json)) (k : String) : Option Json :=
  fields.foldl (fun acc p => if p.1 == k then some p.2 else acc) none

/-- `d.get(k, dflt)` on a Python value `d`: on a dict, the value of `k` or the
default; on anything else Python raises `AttributeError`. -/
def pyGet (d : Json) (k : String) (dflt : Json) : Except PyError Json :=
  match d with
  | .obj fields => .ok ((jlookup fields k).getD dflt)
  | _ => .error .attributeError

/-- `d[k]` for a string key `k`: on a dict, the value or `KeyError`; on a
string or list Python raises `TypeError` (indices must be integers), and on
any other value `TypeError` (not subscriptable). -/
def pyIndexStr (d : Json) (k : String) : Except PyError Json :=
  match d with
  | .obj fields =>
    match jlookup fields k with
    | some v => .ok v
    | none => .error (.keyError k)
  | _ => .error .typeError

/-- `for entry in x`: a list iterates its elements, a string its one-character
substrings, a dict its keys; numbers, booleans and `None` are not iterable
(`TypeError`). -/
def pyIter (x : Json) : Except PyError (List Json) :=
  match x with
  | .arr l => .ok l
  | .str s => .ok (s.data.map (fun c => .str (String.mk [c])))
  | .obj fields => .ok (fields.map (fun p => .str p.1))
  | _ => .error .typeError

/-- Numeric value of an ASCII digit character. -/
def digitVal (c : Char) : Nat := c.toNat - '0'.toNat

/-- The month pattern of CPython `_strptime`, `1[0-2]|0[1-9]|[1-9]`: the
candidate `(month, rest)` matches in backtracking order. -/
def matchMonth : List Char → List (Nat × List Char)
  | [] => []
  | [c] => if '1' ≤ c ∧ c ≤ '9' then [(digitVal c, [])] else []
  | c1 :: c2 :: rest =>
    (if c1 = '1' ∧ '0' ≤ c2 ∧ c2 ≤ '2' then [(10 + digitVal c2, rest)] else []) ++
    (if c1 = '0' ∧ '1' ≤ c2 ∧ c2 ≤ '9' then [(digitVal c2, rest)] else []) ++
    (if '1' ≤ c1 ∧ c1 ≤ '9' then [(digitVal c1, c2 :: rest)] else [])

/-- The day pattern of CPython `_strptime`, `3[01]|[12]\d|0[1-9]|[1-9]`: the
candidate `(day, rest)` matches in backtracking order. -/
def matchDay : List Char → List (Nat × List Char)
  | [] => []
  | [c] => if '1' ≤ c ∧ c ≤ '9' then [(digitVal c, [])] else []
  | c1 :: c2 :: rest =>
    (if c1 = '3' ∧ ('0' ≤ c2 ∧ c2 ≤ '1') then [(30 + digitVal c2, rest)] else []) ++
    (if ('1' ≤ c1 ∧ c1 ≤ '2') ∧ c2.isDigit then [(digitVal c1 * 10 + digitVal c2, rest)] else []) ++
    (if c1 = '0' ∧ '1' ≤ c2 ∧ c2 ≤ '9' then [(digitVal c2, rest)] else []) ++
    (if '1' ≤ c1 ∧ c1 ≤ '9' then [(digitVal c1, c2 :: rest)] else [])

/-- Backtracking combination of month and day: the regex engine commits to the
first month alternative under which some day alternative matches, and within
it to the first such day alternative. -/
def matchMD (cs : List Char) : Option (Nat × Nat × List Char) :=
  ((matchMonth cs).filterMap (fun mc =>
    ((matchDay mc.2).head?).map (fun dc => (mc.1, dc.1, dc.2)))).head?

/-- Number of days in a month, as checked by the `datetime` constructor. -/
def daysInMonth (y m : Nat) : Nat :=
  if m = 2 then
    if y % 4 = 0 ∧ (y % 100 ≠ 0 ∨ y % 400 = 0) then 29 else 28
  else if m = 4 ∨ m = 6 ∨ m = 9 ∨ m = 11 then 30
  else 31

/-- Range checks done by the `datetime(year, month, day)` constructor
(`MINYEAR = 1`; the month and day ranges beyond the regex shape). -/
def datetimeOk (y m d : Nat) : Bool :=
  1 ≤ y ∧ 1 ≤ m ∧ m ≤ 12 ∧ 1 ≤ d ∧ d ≤ daysInMonth y m

/-- `datetime.strptime(s, "%Y%m%d")`, returning `(year, month, day)` or `none`
where Python raises `ValueError`.  CPython compiles the format to the regex
`(?P<Y>\d\d\d\d)(?P<m>1[0-2]|0[1-9]|[1-9])(?P<d>3[01]|[12]\d|0[1-9]|[1-9])`,
matches it at the start of the string, rejects the match if it does not
consume the whole string ("unconverted data remains"), and then builds a
`datetime`, which range-checks the fields.  Digits are modelled as ASCII
digits. -/
def strptimeYmd (s : String) : Option (Nat × Nat × Nat) :=
  match s.data with
  | c1 :: c2 :: c3 :: c4 :: rest =>
    if c1.isDigit ∧ c2.isDigit ∧ c3.isDigit ∧ c4.isDigit then
      let y := digitVal c1 * 1000 + digitVal c2 * 100 + digitVal c3 * 10 + digitVal c4
      match matchMD rest with
      | some (m, d, []) => if datetimeOk y m d then some (y, m, d) else none
      | _ => none
    else none
  | _ => none

/-- A timezone-aware UTC datetime, as produced by
`datetime.strptime(...).replace(tzinfo=timezone.utc)`. -/
structure DateTimeUTC where
  year : Nat
  month : Nat
  day : Nat
  hour : Nat
  minute : Nat
  second : Nat
deriving DecidableEq, Repr

/-- One row of the output DataFrame. -/
structure ProductionRecord where
  timestamp : DateTimeUTC
  power_kw : Rat
deriving DecidableEq, Repr

/-- The `"timestamp"` value of one comprehension step:
`datetime.strptime(entry["date"], "%Y%m%d").replace(tzinfo=timezone.utc)`.
`strptime` raises `TypeError` on a non-string argument and `ValueError` on a
string it cannot parse; `%Y%m%d` leaves the time fields at midnight. -/
def pyStrptimeField (v : Json) : Except PyError DateTimeUTC :=
  match v with
  | .str s =>
    match strptimeYmd s with
    | some (y, m, d) => .ok ⟨y, m, d, 0, 0, 0⟩
    | none => .error .valueError
  | _ => .error .typeError

/-- The `"power_kw"` value of one comprehension step: `v / 24.0` where `v` is
`entry.get("dailyProduction", 0)`.  Division works on numbers (and on
booleans, which are integers in Python); anything else raises `TypeError`. -/
def pyDiv24 (v : Json) : Except PyError Rat :=
  match v with
  | .num q => .ok (q / 24)
  | .bool b => .ok ((if b then 1 else 0) / 24)
  | _ => .error .typeError

/-- The body of the list comprehension in `process_aurora_data`, for a single
`entry` (source lines 55–58): the dict literal evaluates its `"timestamp"`
value first, then its `"power_kw"` value. -/
def process_entry (entry : Json) : Except PyError ProductionRecord := do
  let dv ← pyIndexStr entry "date"
  let ts ← pyStrptimeField dv
  let pv ← pyGet entry "dailyProduction" (.num 0)
  let p ← pyDiv24 pv
  .ok { timestamp := ts, power_kw := p }

/-- The list comprehension itself: entries are processed left to right and the
first exception aborts the whole comprehension (no partial list is ever
produced). -/
def process_entries : List Json → Except PyError (List ProductionRecord)
  | [] => .ok []
  | e :: rest => do
    let r ← process_entry e
    let rs ← process_entries rest
    .ok (r :: rs)

/-- `process_aurora_data(data_json)` (source lines 50–61): build one record
per entry of `data_json.get("result", [])` and return them as a DataFrame,
modelled as the ordered list of rows. -/
def process_aurora_data (data_json : Json) : Except PyError (List ProductionRecord) := do
  let resultVal ← pyGet data_json "result" (.arr [])
  let entries ← pyIter resultVal
  process_entries entries

/-- The `AuroraVisionSettings` record: four opaque strings loaded from the
environment by pydantic-settings. -/
structure AuroraVisionSettings where
  api_key : String
  user_id : String
  password : String
  plant_id : String
deriving DecidableEq, Repr

/-- The process environment, reduced to the one variable the module touches:
`os.environ["AURORA_ACCESS_TOKEN"]`.  `os.getenv` yields `none` when the
variable is unset. -/
structure Env where
  aurora_access_token : Option String
deriving DecidableEq, Repr

/-- One scripted HTTP response: its status and its body, already parsed from
JSON (scripting a parsed value models `res.read()` followed by
`json.loads`). -/
structure HttpResponse where
  status : Nat
  body : Json

/-- Observable actions of a run: entering `authenticate_aurora`, and issuing
a production-query network request (a `conn.request`/`conn.getresponse` pair
with the given path and `X-AuroraVision-Token` header value). -/
inductive Event where
  | authCall : Event
  | request (path : String) (token : String) : Event
deriving DecidableEq, Repr

/-- Result of a run of `authenticate_aurora`: the returned token or the raised
exception, the logged events, the environment after the run, and the part of
the response script not consumed by it. -/
structure AuthOutcome where
  result : Except PyError String
  events : List Event
  env : Env
  script : List HttpResponse

/-- `authenticate_aurora(settings)` (source lines 31–47).  Executed
statements, in order:
* line 33 `conn = http.client.HTTPSConnection("api.auroravision.net")` —
  constructs the connection object, performs no I/O;
* line 34 `headers = \x7b"X-AuroraVision-ApiKey": settings.api_key\x7d`;
* line 35 `auth_str = f"..."`;
* line 36 `headers["Authorization"] = "Basic " +
  base64.b64encode(auth_str.encode()).decode()` — the module never imports
  `base64`, so this raises `NameError: name 'base64' is not defined`.
The raise happens before line 38's `conn.request`, so no request is sent, no
response is consumed, and the `os.environ` write of line 46 never runs: lines
38–47 are unreachable.  The function therefore always propagates the
`NameError`, leaving script and environment untouched. -/
def authenticate_aurora (settings : AuroraVisionSettings) (script : List HttpResponse)
    (env : Env) : AuthOutcome :=
  let _apiKeyHeader := settings.api_key
  let _auth_str := settings.user_id ++ ":" ++ settings.password
  { result := .error (.nameError "base64")
    events := [.authCall]
    env := env
    script := script }

/-- Zero-padding to two digits, as `strftime` does for `%m` and `%d`. -/
def pad2 (n : Nat) : String :=
  if n < 10 then "0" ++ toString n else toString n

/-- Zero-padding to four digits, as `strftime` does for `%Y` in the
`pandas.Timestamp` year range. -/
def pad4 (n : Nat) : String :=
  if n < 10 then "000" ++ toString n
  else if n < 100 then "00" ++ toString n
  else if n < 1000 then "0" ++ toString n
  else toString n

/-- The date portion of the `pandas.Timestamp` argument; only
`ts.strftime("%Y%m%d")` of it is ever used. -/
structure Timestamp where
  year : Nat
  month : Nat
  day : Nat
deriving DecidableEq, Repr

/-- `ts.strftime("%Y%m%d")`. -/
def strftimeYmd (ts : Timestamp) : String :=
  pad4 ts.year ++ pad2 ts.month ++ pad2 ts.day

/-- The production-query path of source line 77:
`f"/api/rest/v1/plant/\x7bsettings.plant_id\x7d/dailyProduction?startDate=\x7bstart_date\x7d&endDate=\x7bend_date\x7d"`
with `end_date = start_date` (line 73: single-day query). -/
def queryUrl (settings : AuroraVisionSettings) (day : String) : String :=
  "/api/rest/v1/plant/" ++ settings.plant_id ++ "/dailyProduction?startDate="
    ++ day ++ "&endDate=" ++ day

/-- Result of a run of `get_aurora_vision_data`: the returned DataFrame rows
or the raised exception, the logged events, the final environment, and the
unconsumed rest of the response script. -/
structure FetchOutcome where
  result : Except PyError (List ProductionRecord)
  events : List Event
  env : Env
  script : List HttpResponse

/-- Source lines 88–94, applied to the response `res` that survives the 401
check: `if res.status != 200: raise Exception(f"Failed to fetch data: HTTP
\x7bres.status\x7d")`, else parse the body and return
`process_aurora_data(data_json)`. -/
def fetchFinal (res : HttpResponse) : Except PyError (List ProductionRecord) :=
  if res.status ≠ 200 then .error (.fetchFailed res.status)
  else process_aurora_data res.body

/-- Source lines 74–94, after a token has been obtained: issue the
production-query request (lines 75–80), run the 401 retry branch (lines
82–86) and finish with `fetchFinal` (lines 88–94).  Each
`conn.request`/`conn.getresponse` pair consumes the next scripted response
and logs an `Event.request`. -/
def queryWithToken (settings : AuroraVisionSettings) (ts : Timestamp) (token : String)
    (events0 : List Event) (env : Env) (script : List HttpResponse) : FetchOutcome :=
  let url := queryUrl settings (strftimeYmd ts)
  match script with
  | [] =>
    { result := .error .noResponse, events := events0 ++ [.request url token]
      env := env, script := [] }
  | res :: rest =>
    let events1 := events0 ++ [.request url token]
    if res.status = 401 then
      -- line 83: `token = authenticate_aurora(settings)` — raises NameError
      let a := authenticate_aurora settings rest env
      match a.result with
      | .error e =>
        { result := .error e, events := events1 ++ a.events, env := a.env, script := a.script }
      | .ok token2 =>
        -- lines 84–86: set the new token header, reissue the request once
        match a.script with
        | [] =>
          { result := .error .noResponse
            events := events1 ++ a.events ++ [.request url token2]
            env := a.env, script := [] }
        | res2 :: rest2 =>
          { result := fetchFinal res2
            events := events1 ++ a.events ++ [.request url token2]
            env := a.env, script := rest2 }
    else
      { result := fetchFinal res, events := events1, env := env, script := rest }

/-- `get_aurora_vision_data(settings, ts)` (source lines 64–94).  Lines
68–70: `token = os.getenv("AURORA_ACCESS_TOKEN")`, and `if not token:` — true
both when the variable is unset (`None`) and when it holds the empty string —
`token = authenticate_aurora(settings)`.  The rest is `queryWithToken`. -/
def get_aurora_vision_data (settings : AuroraVisionSettings) (ts : Timestamp)
    (env : Env) (script : List HttpResponse) : FetchOutcome :=
  let token0 := env.aurora_access_token.getD ""
  if token0 = "" then
    let a := authenticate_aurora settings script env
    match a.result with
    | .error e => { result := .error e, events := a.events, env := a.env, script := a.script }
    | .ok token => queryWithToken settings ts token a.events a.env a.script
  else
    queryWithToken settings ts token0 [] env script

/-! ### Analysis helpers -/

/-- Whether an `Except` value is a success. -/
def isOkB {α : Type} : Except PyError α → Bool
  | .ok _ => true
  | .error _ => false

/-- An entry has a usable date: it is a dict whose `"date"` key holds a string
accepted by `strptime(..., "%Y%m%d")`. -/
def entryDateOkB (e : Json) : Bool :=
  match e with
  | .obj fs =>
    match jlookup fs "date" with
    | some (.str s) => (strptimeYmd s).isSome
    | _ => false
  | _ => false

/-- The exceptions the spec's ParseError taxonomy covers for a bad entry:
`KeyError` (date absent), `ValueError` (date string malformed) and
`TypeError` (a field of the wrong type). -/
def isParseErrorB : PyError → Bool
  | .keyError _ => true
  | .valueError => true
  | .typeError => true
  | _ => false

theorem except_bind_ok {α β : Type} (a : α) (f : α → Except PyError β) :
    (Except.ok a >>= f) = f a := rfl

theorem except_bind_error {α β : Type} (e : PyError) (f : α → Except PyError β) :
    ((Except.error e : Except PyError α) >>= f) = Except.error e := rfl

theorem pyIndexStr_ok {e : Json} {k : String} {v : Json}
    (h : pyIndexStr e k = .ok v) :
    ∃ fs, e = .obj fs ∧ jlookup fs k = some v := by
  cases e <;> simp only [pyIndexStr] at h
  case obj fs =>
    cases hl : jlookup fs k with
    | none => rw [hl] at h; exact absurd h (by simp)
    | some w => rw [hl] at h; exact ⟨fs, rfl, by cases h; exact hl⟩
  all_goals cases h

theorem pyIndexStr_error {e : Json} {k : String} {err : PyError}
    (h : pyIndexStr e k = .error err) :
    err = .keyError k ∨ err = .typeError := by
  cases e <;> simp only [pyIndexStr] at h
  case obj fs =>
    cases hl : jlookup fs k with
    | none => rw [hl] at h; cases h; exact Or.inl rfl
    | some w => rw [hl] at h; cases h
  all_goals (cases h; exact Or.inr rfl)

theorem pyStrptimeField_ok {v : Json} {t : DateTimeUTC}
    (h : pyStrptimeField v = .ok t) :
    ∃ s y m d, v = .str s ∧ strptimeYmd s = some (y, m, d) ∧
      t = ⟨y, m, d, 0, 0, 0⟩ := by
  cases v <;> simp only [pyStrptimeField] at h
  case str s =>
    cases hp : strptimeYmd s with
    | none => rw [hp] at h; cases h
    | some ymd =>
      obtain ⟨y, m, d⟩ := ymd
      rw [hp] at h
      exact ⟨s, y, m, d, rfl, hp, by cases h; rfl⟩
  all_goals cases h

theorem pyStrptimeField_error {v : Json} {err : PyError}
    (h : pyStrptimeField v = .error err) :
    err = .valueError ∨ err = .typeError := by
  cases v <;> simp only [pyStrptimeField] at h
  case str s =>
    cases hp : strptimeYmd s with
    | none => rw [hp] at h; cases h; exact Or.inl rfl
    | some ymd => obtain ⟨y, m, d⟩ := ymd; rw [hp] at h; cases h
  all_goals (cases h; exact Or.inr rfl)

theorem pyDiv24_error {v : Json} {err : PyError}
    (h : pyDiv24 v = .error err) : err = .typeError := by
  cases v <;> simp only [pyDiv24] at h <;> first | (cases h; rfl) | cases h

/-- Every exception a single comprehension step can raise is in the
ParseError class (the `AttributeError` branch of `pyGet` is unreachable:
`entry["date"]` succeeding forces `entry` to be a dict). -/
theorem process_entry_error_parse {e : Json} {err : PyError}
    (h : process_entry e = .error err) : isParseErrorB err = true := by
  unfold process_entry at h
  cases hdv : pyIndexStr e "date" with
  | error e1 =>
    rw [hdv, except_bind_error] at h
    cases h
    rcases pyIndexStr_error hdv with h1 | h1 <;> rw [h1] <;> rfl
  | ok dv =>
    rw [hdv, except_bind_ok] at h
    obtain ⟨fs, rfl, -⟩ := pyIndexStr_ok hdv
    cases hts : pyStrptimeField dv with
    | error e2 =>
      rw [hts, except_bind_error] at h
      cases h
      rcases pyStrptimeField_error hts with h1 | h1 <;> rw [h1] <;> rfl
    | ok ts =>
      rw [hts, except_bind_ok] at h
      rw [show pyGet (Json.obj fs) "dailyProduction" (.num 0)
            = .ok ((jlookup fs "dailyProduction").getD (.num 0)) from rfl,
        except_bind_ok] at h
      cases hp : pyDiv24 ((jlookup fs "dailyProduction").getD (.num 0)) with
      | error e3 =>
        rw [hp, except_bind_error] at h
        cases h
        rw [pyDiv24_error hp]; rfl
      | ok p => rw [hp, except_bind_ok] at h; cases h

/-- A comprehension step that succeeds had a usable date. -/
theorem process_entry_ok_dateOk {e : Json} {r : ProductionRecord}
    (h : process_entry e = .ok r) : entryDateOkB e = true := by
  unfold process_entry at h
  cases hdv : pyIndexStr e "date" with
  | error e1 => rw [hdv, except_bind_error] at h; cases h
  | ok dv =>
    rw [hdv, except_bind_ok] at h
    obtain ⟨fs, rfl, hl⟩ := pyIndexStr_ok hdv
    cases hts : pyStrptimeField dv with
    | error e2 => rw [hts, except_bind_error] at h; cases h
    | ok ts =>
      obtain ⟨s, y, m, d, rfl, hp, -⟩ := pyStrptimeField_ok hts
      simp only [entryDateOkB, hl, hp, Option.isSome]

/-- An entry without a usable date makes its comprehension step raise an
exception in the ParseError class. -/
theorem process_entry_bad {e : Json} (hbad : entryDateOkB e = false) :
    ∃ err, process_entry e = .error err ∧ isParseErrorB err = true := by
  cases h : process_entry e with
  | ok r => rw [process_entry_ok_dateOk h] at hbad; cases hbad
  | error err => exact ⟨err, rfl, process_entry_error_parse h⟩

/-- If some entry of the list lacks a usable date, the whole comprehension
raises (no partial list), with an exception in the ParseError class. -/
theorem process_entries_mem_bad {l : List Json} {e : Json}
    (hmem : e ∈ l) (hbad : entryDateOkB e = false) :
    ∃ err, process_entries l = .error err ∧ isParseErrorB err = true := by
  induction l with
  | nil => cases hmem
  | cons hd tl ih =>
    cases hh : process_entry hd with
    | error err =>
      exact ⟨err, by unfold process_entries; rw [hh, except_bind_error],
        process_entry_error_parse hh⟩
    | ok r =>
      rcases List.mem_cons.mp hmem with rfl | hmem2
      · obtain ⟨err, he, -⟩ := process_entry_bad hbad
        rw [hh] at he; cases he
      · obtain ⟨err, he, hp⟩ := ih hmem2
        refine ⟨err, ?_, hp⟩
        unfold process_entries
        rw [hh, except_bind_ok, he, except_bind_error]

/-- If every entry succeeds, the comprehension returns one record per entry,
in order. -/
theorem process_entries_all_ok {l : List Json}
    (hok : ∀ e ∈ l, isOkB (process_entry e) = true) :
    ∃ rows, process_entries l = .ok rows ∧ rows.length = l.length ∧
      ∀ i (h1 : i < l.length) (h2 : i < rows.length),
        process_entry (l.get ⟨i, h1⟩) = .ok (rows.get ⟨i, h2⟩) := by
  induction l with
  | nil => exact ⟨[], rfl, rfl, fun i h1 => absurd h1 (Nat.not_lt_zero i)⟩
  | cons hd tl ih =>
    have hhd := hok hd (List.mem_cons_self hd tl)
    cases hh : process_entry hd with
    | error err => rw [hh] at hhd; cases hhd
    | ok r =>
      obtain ⟨rows, hrows, hlen, hget⟩ :=
        ih (fun e he => hok e (List.mem_cons_of_mem hd he))
      refine ⟨r :: rows, ?_, by simp [hlen], ?_⟩
      · unfold process_entries
        rw [hh, except_bind_ok, hrows, except_bind_ok]
      · intro i h1 h2
        cases i with
        | zero => exact hh
        | succ j =>
          exact hget j (Nat.lt_of_succ_lt_succ h1) (Nat.lt_of_succ_lt_succ h2)

/-- Unfolding `process_aurora_data` on a dict whose `"result"` key holds a
list of entries. -/
theorem process_aurora_data_result {fields : List (String × Json)}
    {entries : List Json}
    (hres : jlookup fields "result" = some (Json.arr entries)) :
    process_aurora_data (Json.obj fields) = process_entries entries := by
  unfold process_aurora_data
  rw [show pyGet (Json.obj fields) "result" (.arr [])
        = .ok ((jlookup fields "result").getD (.arr [])) from rfl,
    except_bind_ok, hres]
  rfl

/-! ### Concrete fixtures used by the closed theorems and witnesses -/

/-- A well-formed vendor entry: date 2024-01-01, dailyProduction 240. -/
def sampleEntry1 : Json :=
  .obj [("date", .str "20240101"), ("dailyProduction", .num 240)]

/-- A well-formed vendor entry with no `dailyProduction` field. -/
def sampleEntry2 : Json := .obj [("date", .str "20240102")]

/-- Concrete credentials. -/
def sampleSettings : AuroraVisionSettings := ⟨"key", "user", "pass", "plant1"⟩

/-- A well-formed production-query response body. -/
def goodBody : Json := .obj [("result", .arr [sampleEntry1])]

/-! ### The claims -/

/-- C1: the claim says that when the first production-query response is 401,
`fetch` forces a fresh authenticator call, reissues the same request exactly
once with the new token, and fails with a FetchError carrying the status code
if the second response is also non-200, never attempting a third request.
The code does not do this: the 401 branch calls `authenticate_aurora`, which
raises `NameError: name 'base64' is not defined` (the module never imports
`base64`) before sending anything, so the request is never reissued and no
FetchError is produced.  This theorem evaluates the code at the failing
input: a cached token `"cached"`, a first response of status 401, and a
second scripted response of status 200 that is never consumed — the run ends
with the `NameError`, having made exactly one request. -/
theorem claim_C1_code_behavior :
    get_aurora_vision_data sampleSettings ⟨2024, 1, 1⟩ ⟨some "cached"⟩
      [⟨401, Json.obj []⟩, ⟨200, goodBody⟩]
    = { result := .error (.nameError "base64")
        events := [.request (queryUrl sampleSettings "20240101") "cached", .authCall]
        env := ⟨some "cached"⟩
        script := [⟨200, goodBody⟩] } := by rfl

/-- C2: the payload `{"result": [{"date": "20240101", "dailyProduction":
240}]}` transforms into exactly one record, with timestamp
2024-01-01T00:00:00 UTC and power_kw = 240 / 24 = 10.0. -/
theorem claim_C2_transform_example :
    process_aurora_data (Json.obj [("result", Json.arr [sampleEntry1])])
    = .ok [{ timestamp := ⟨2024, 1, 1, 0, 0, 0⟩, power_kw := 10 }] := by
  have h : process_aurora_data (Json.obj [("result", Json.arr [sampleEntry1])])
      = .ok [{ timestamp := ⟨2024, 1, 1, 0, 0, 0⟩, power_kw := (240 : Rat) / 24 }] := rfl
  rw [h]
  norm_num

/-- C3: the claim says that on a 200 authentication response whose JSON body
has a `result` field, `authenticate` returns that token and stores it in the
process-wide cached slot.  The code cannot do this: `authenticate_aurora`
raises `NameError: name 'base64' is not defined` at line 36, before the
request of line 38 is ever sent, so the scripted 200 response carrying the
token is never consumed, nothing is returned, and the environment slot is
left untouched. -/
theorem claim_C3_code_behavior :
    authenticate_aurora sampleSettings
      [⟨200, Json.obj [("result", Json.str "tok123")]⟩] ⟨none⟩
    = { result := .error (.nameError "base64")
        events := [.authCall]
        env := ⟨none⟩
        script := [⟨200, Json.obj [("result", Json.str "tok123")]⟩] } := by rfl

/-- C4: a payload whose `result` list contains an entry with no usable date
(the `date` key absent, non-string, or a string `strptime` rejects) makes the
whole transformation raise an exception of the ParseError class; no partial
table is returned. -/
theorem claim_C4_bad_date_aborts (fields : List (String × Json))
    (entries : List Json) (e : Json)
    (hres : jlookup fields "result" = some (Json.arr entries))
    (hmem : e ∈ entries) (hbad : entryDateOkB e = false) :
    ∃ err, process_aurora_data (Json.obj fields) = .error err ∧
      isParseErrorB err = true := by
  rw [process_aurora_data_result hres]
  exact process_entries_mem_bad hmem hbad

/-- Witness for C4: a one-entry payload whose entry is a dict without a
`date` key makes the transformation fail with a ParseError-class
exception. -/
theorem claim_C4_witness :
    ∃ err, process_aurora_data
      (Json.obj [("result", Json.arr [Json.obj [("dailyProduction", Json.num 5)]])])
      = .error err ∧ isParseErrorB err = true :=
  claim_C4_bad_date_aborts _ _ (Json.obj [("dailyProduction", Json.num 5)])
    rfl (List.Mem.head _) rfl

/-- C5: an entry with a valid date and no `dailyProduction` field yields a
record with power_kw = 0 / 24.0 = 0.0 — both for the single comprehension
step and for the table built from a payload holding that entry — rather than
an error or a dropped row. -/
theorem claim_C5_missing_production_zero (fields : List (String × Json))
    (s : String) (y m d : Nat)
    (hdate : jlookup fields "date" = some (Json.str s))
    (hparse : strptimeYmd s = some (y, m, d))
    (hnoprod : jlookup fields "dailyProduction" = none) :
    process_entry (Json.obj fields)
      = .ok { timestamp := ⟨y, m, d, 0, 0, 0⟩, power_kw := 0 }
    ∧ process_aurora_data (Json.obj [("result", Json.arr [Json.obj fields])])
      = .ok [{ timestamp := ⟨y, m, d, 0, 0, 0⟩, power_kw := 0 }] := by
  have h1 : pyIndexStr (Json.obj fields) "date" = .ok (Json.str s) := by
    simp only [pyIndexStr, hdate]
  have h2 : pyStrptimeField (Json.str s) = .ok ⟨y, m, d, 0, 0, 0⟩ := by
    simp only [pyStrptimeField, hparse]
  have h3 : pyGet (Json.obj fields) "dailyProduction" (.num 0) = .ok (.num 0) := by
    simp only [pyGet, hnoprod, Option.getD]
  have h4 : pyDiv24 (Json.num 0) = .ok 0 := by
    simp [pyDiv24]
  have hentry : process_entry (Json.obj fields)
      = .ok { timestamp := ⟨y, m, d, 0, 0, 0⟩, power_kw := 0 } := by
    unfold process_entry
    rw [h1, except_bind_ok, h2, except_bind_ok, h3, except_bind_ok, h4,
      except_bind_ok]
  refine ⟨hentry, ?_⟩
  have hres : jlookup [("result", Json.arr [Json.obj fields])] "result"
      = some (Json.arr [Json.obj fields]) := rfl
  rw [process_aurora_data_result hres]
  unfold process_entries
  rw [hentry, except_bind_ok]
  rfl

/-- Witness for C5: the entry `{"date": "20240102"}` yields the record
(2024-01-02T00:00:00 UTC, 0.0). -/
theorem claim_C5_witness :
    process_entry (Json.obj [("date", Json.str "20240102")])
      = .ok { timestamp := ⟨2024, 1, 2, 0, 0, 0⟩, power_kw := 0 }
    ∧ process_aurora_data
        (Json.obj [("result", Json.arr [Json.obj [("date", Json.str "20240102")]])])
      = .ok [{ timestamp := ⟨2024, 1, 2, 0, 0, 0⟩, power_kw := 0 }] :=
  claim_C5_missing_production_zero [("date", Json.str "20240102")]
    "20240102" 2024 1 2 rfl rfl rfl

/-- C6: on a payload whose `result` list holds N entries that all process
successfully, the transformation returns exactly N rows, the i-th row being
the record of the i-th entry — an order-preserving map over the entry
list. -/
theorem claim_C6_order_preserved (fields : List (String × Json))
    (entries : List Json)
    (hres : jlookup fields "result" = some (Json.arr entries))
    (hok : ∀ e ∈ entries, isOkB (process_entry e) = true) :
    ∃ rows, process_aurora_data (Json.obj fields) = .ok rows ∧
      rows.length = entries.length ∧
      ∀ i (h1 : i < entries.length) (h2 : i < rows.length),
        process_entry (entries.get ⟨i, h1⟩) = .ok (rows.get ⟨i, h2⟩) := by
  rw [process_aurora_data_result hres]
  exact process_entries_all_ok hok

/-- Witness for C6: a two-entry payload yields two rows, in entry order. -/
theorem claim_C6_witness :
    ∃ rows, process_aurora_data
        (Json.obj [("result", Json.arr [sampleEntry1, sampleEntry2])]) = .ok rows ∧
      rows.length = ([sampleEntry1, sampleEntry2] : List Json).length ∧
      ∀ i (h1 : i < ([sampleEntry1, sampleEntry2] : List Json).length)
        (h2 : i < rows.length),
        process_entry (([sampleEntry1, sampleEntry2] : List Json).get ⟨i, h1⟩)
          = .ok (rows.get ⟨i, h2⟩) :=
  claim_C6_order_preserved _ _ rfl (by decide)

/-- C7: with a cached non-empty token and a 200 production-query response,
`fetch` issues exactly one network request, carrying that token, and never
calls the authenticator: the event trace is the single request. -/
theorem claim_C7_token_reuse (settings : AuroraVisionSettings) (ts : Timestamp)
    (t : String) (body : Json) (rest : List HttpResponse) (ht : t ≠ "") :
    (get_aurora_vision_data settings ts ⟨some t⟩
        ({ status := 200, body := body } :: rest)).events
    = [Event.request (queryUrl settings (strftimeYmd ts)) t] := by
  unfold get_aurora_vision_data
  simp only [Option.getD]
  rw [if_neg ht]
  unfold queryWithToken
  simp

/-- Witness for C7: with cached token `"tok"` and a 200 response, the trace
is one production request and no authenticator call. -/
theorem claim_C7_witness :
    (get_aurora_vision_data sampleSettings ⟨2024, 1, 1⟩ ⟨some "tok"⟩
        [{ status := 200, body := goodBody }]).events
    = [Event.request (queryUrl sampleSettings (strftimeYmd ⟨2024, 1, 1⟩)) "tok"] :=
  claim_C7_token_reuse sampleSettings ⟨2024, 1, 1⟩ "tok" goodBody [] (by decide)

/-- C8: the claim says that on a non-200 authentication response (e.g. 403)
`authenticate` fails with an AuthenticationError carrying that status and
caches no token.  The code never reaches its status check: it raises
`NameError: name 'base64' is not defined` at line 36, before the request is
sent, so the scripted 403 response is never consumed and the failure carries
no status code.  (The cached slot is indeed left unchanged, but only because
the function dies earlier.)  This theorem evaluates the code at the failing
input. -/
theorem claim_C8_code_behavior :
    authenticate_aurora sampleSettings [⟨403, Json.obj []⟩] ⟨some "old"⟩
    = { result := .error (.nameError "base64")
        events := [.authCall]
        env := ⟨some "old"⟩
        script := [⟨403, Json.obj []⟩] } := by rfl

/-- C9: when the cached token slot holds the empty string, `fetch` treats the
token as absent (the check `if not token:` is on truthiness, not presence)
and calls the authenticator before issuing any production query: the event
trace begins with — and, the authenticator call failing, consists of — the
authenticator call, with no production request before it. -/
theorem claim_C9_empty_token_reauth (settings : AuroraVisionSettings)
    (ts : Timestamp) (env : Env) (script : List HttpResponse)
    (henv : env.aurora_access_token = some "") :
    (get_aurora_vision_data settings ts env script).events = [Event.authCall] := by
  unfold get_aurora_vision_data
  rw [henv]
  rfl

/-- Witness for C9: with the cached slot holding `""`, the trace of `fetch`
is the authenticator call, with no production request before it. -/
theorem claim_C9_witness :
    (get_aurora_vision_data sampleSettings ⟨2024, 1, 1⟩ ⟨some ""⟩
        [{ status := 200, body := goodBody }]).events = [Event.authCall] :=
  claim_C9_empty_token_reauth sampleSettings ⟨2024, 1, 1⟩ ⟨some ""⟩
    [{ status := 200, body := goodBody }] rfl

/-- C10: a payload that is a JSON object with no `result` field transforms
into the empty table: `data_json.get("result", [])` defaults to the empty
list, so the comprehension yields zero rows and no exception. -/
theorem claim_C10_no_result_empty (fields : List (String × Json))
    (hres : jlookup fields "result" = none) :
    process_aurora_data (Json.obj fields) = .ok [] := by
  unfold process_aurora_data
  rw [show pyGet (Json.obj fields) "result" (.arr [])
        = .ok ((jlookup fields "result").getD (.arr [])) from rfl,
    except_bind_ok, hres]
  rfl

/-- Witness for C10: the payload `\x7b"status": "ok"\x7d` yields the empty
table. -/
theorem claim_C10_witness :
    process_aurora_data (Json.obj [("status", Json.str "ok")]) = .ok [] :=
  claim_C10_no_result_empty [("status", Json.str "ok")] rfl

end Aurora
